import Mathlib

/-
Verification of the gas-turbine anomaly-detection pipeline
(`src/anomoly_detection.py`) against its specification.

The script is a straight-line batch computation over an in-memory
dataframe.  We embed the dataframe as an ordered list of rows (each row a
function from column name to a rational sensor reading) together with its
schema, and each pipeline stage as a pure function, in the exact order of
the source:

  line 50-56   key_cols resolution + empty-schema ValueError
  line 61-63   z-score flags        (pandas mean / std, ddof = 1)
  line 68-72   isolation-forest flags (fit on scaled data, predict on raw)
  line 77-80   regression-input ValueError
  line 85-90   TEY regression residual flags
  line 95-97   combined anomaly flag (bitwise or)
  line 102-107 report column selection

The two numeric model collaborators (sklearn IsolationForest and
LinearRegression) are black-box capabilities per the spec ("treated as
black-box capabilities with documented input/output contracts"); they are
parameters `ForestModel` / `RegModel` of the pipeline.  Machine floats are
modelled as exact rationals; the only irrational step, StandardScaler's
division by the population standard deviation, is modelled over ℝ with
`Real.sqrt`.

Pandas `Series.std()` uses ddof = 1 and returns NaN on a series of length
< 2; every comparison with NaN is False.  The decision
`|x - mean| / std > 3` is therefore embedded as the exact equivalent
`2 ≤ n ∧ (x - mean)^2 > 9 * sampleVar` (squaring removes the square root;
the length guard reproduces the NaN comparison semantics; for a
zero-variance column both sides are 0 and the comparison is False, exactly
as 0/0 = NaN compares False in pandas).
-/

namespace AnomalyDetection

/-- A cleaned tabular dataset: the schema (column names, as produced by the
upstream cleaning and renaming steps) and the time-ordered rows.  A row
maps a column name to its numeric reading. -/
structure Dataset where
  schema : List String
  rows : List (String → ℚ)

/-- Values of one column, in row (time) order: `df[c]`. -/
def colOf (ds : Dataset) (c : String) : List ℚ :=
  ds.rows.map (fun r => r c)

/-- Arithmetic mean of a series: `x.mean()`.  (Junk value 0 on the empty
series, where pandas gives NaN; the pipeline never flags on it.) -/
def mean (xs : List ℚ) : ℚ :=
  xs.sum / (xs.length : ℚ)

/-- Sample variance with ddof = 1, the square of pandas `x.std()`.
For a series of length < 2 pandas yields NaN; here rational division by
zero yields the junk value 0, and every use is guarded by a length test. -/
def sampleVar (xs : List ℚ) : ℚ :=
  ((xs.map (fun x => (x - mean xs) ^ 2)).sum) / ((xs.length : ℚ) - 1)

/-- Population variance (ddof = 0), the square of sklearn StandardScaler's
scale. -/
def popVar (xs : List ℚ) : ℚ :=
  ((xs.map (fun x => (x - mean xs) ^ 2)).sum) / (xs.length : ℚ)

/-- Line 50: the fixed candidate sensor list. -/
def candidate_cols : List String := ["TIT", "TAT", "TEY", "CDP", "CO", "NOx"]

/-- Line 51: `key_cols = [c for c in candidate_cols if c in df.columns]` —
the present candidates, in the candidates' declared order. -/
def key_cols (ds : Dataset) : List String :=
  candidate_cols.filter (fun c => decide (c ∈ ds.schema))

/-- Line 62-63, one column's contribution to `z_flag`: the exact decision
`|(x - x.mean()) / x.std()| > 3` with pandas sample std (ddof = 1),
rendered without the square root as `(x - mean)^2 > 9 * sampleVar`, with
the length guard standing for "std is not NaN". -/
def zColHit (xs : List ℚ) (x : ℚ) : Prop :=
  2 ≤ xs.length ∧ 9 * sampleVar xs < (x - mean xs) ^ 2

instance (xs : List ℚ) (x : ℚ) : Decidable (zColHit xs x) :=
  inferInstanceAs (Decidable (_ ∧ _))

/-- Line 61-63: `df["z_flag"] = (np.abs(z_scores) > 3.0).any(axis=1)
.astype(int)` — per record, 1 iff some selected column's z-score exceeds
the threshold. -/
def z_flag (ds : Dataset) : List ℕ :=
  ds.rows.map (fun r =>
    if ∃ c ∈ key_cols ds, zColHit (colOf ds c) (r c) then 1 else 0)

/-- An isolation-forest capability: parameters
(n_estimators, contamination, random_state), data the `fit` call receives,
data the `predict` call receives; result is the per-row outlier label
(`true` stands for prediction -1, outlier). -/
def ForestModel : Type :=
  ℕ → ℚ → ℕ → List (List ℝ) → List (List ℝ) → List Bool

/-- StandardScaler's per-column scale: the population standard deviation,
with sklearn's zero-variance guard (a constant column is scaled by 1). -/
noncomputable def scaleFactor (xs : List ℚ) : ℝ :=
  if popVar xs = 0 then 1 else Real.sqrt ((popVar xs : ℚ) : ℝ)

/-- Line 71's fit argument: `StandardScaler().fit_transform(df[key_cols])`
— each selected column centred and divided by its population std. -/
noncomputable def scaledMatrix (ds : Dataset) : List (List ℝ) :=
  ds.rows.map (fun r =>
    (key_cols ds).map (fun c =>
      (((r c : ℚ) : ℝ) - ((mean (colOf ds c) : ℚ) : ℝ)) / scaleFactor (colOf ds c)))

/-- Line 72's predict argument: the raw, unstandardized `df[key_cols]`. -/
noncomputable def rawMatrix (ds : Dataset) : List (List ℝ) :=
  ds.rows.map (fun r => (key_cols ds).map (fun c => ((r c : ℚ) : ℝ)))

/-- Lines 68-72: the forest is constructed with contamination 0.02,
random_state 42, n_estimators 200, fitted on the standardized matrix and
asked to predict on the raw matrix; `iso_flag = (predict == -1)
.astype(int)`. -/
noncomputable def iso_flag (mk : ForestModel) (ds : Dataset) : List ℕ :=
  (mk 200 (2/100) 42 (scaledMatrix ds) (rawMatrix ds)).map
    (fun b => if b then 1 else 0)

/-- Modelled from the spec: the Density Outlier Detector's contract as the
spec words it — labels come from `fit_predict(standardized_matrix)`, i.e.
the model predicts on the same standardized data it was fitted on, "not
from unstandardized input".  To be compared with `iso_flag`, which embeds
what line 72 of the source actually does. -/
noncomputable def iso_flag_spec (mk : ForestModel) (ds : Dataset) : List ℕ :=
  (mk 200 (2/100) 42 (scaledMatrix ds) (scaledMatrix ds)).map
    (fun b => if b then 1 else 0)

/-- A linear-regression capability: `reg` receives the design matrix `X`
and target `y` it is fitted on, and returns `reg.predict(X)`, the fitted
predictions on that same `X` (the source predicts on the training data). -/
def RegModel : Type :=
  List (List ℚ) → List ℚ → List ℚ

/-- Line 77: `reg_inputs = [c for c in ["AT","AP","RH","CDP"] if c in
df.columns]`. -/
def reg_inputs (ds : Dataset) : List String :=
  (["AT", "AP", "RH", "CDP"]).filter (fun c => decide (c ∈ ds.schema))

/-- Line 82: the design matrix `X = df[reg_inputs]`, one row per record. -/
def designMatrix (ds : Dataset) : List (List ℚ) :=
  ds.rows.map (fun r => (reg_inputs ds).map r)

/-- Line 83: the regression target `y = df["TEY"]`. -/
def teyCol (ds : Dataset) : List ℚ :=
  colOf ds "TEY"

/-- Lines 85-86: `df["TEY_pred"] = reg.predict(X)` for the model fitted on
the entire dataset (`LinearRegression().fit(X, y)` with X, y both taken
from the full dataset, no split). -/
def tey_pred (reg : RegModel) (ds : Dataset) : List ℚ :=
  reg (designMatrix ds) (teyCol ds)

/-- Line 87: `residual_std = df["TEY"] - df["TEY_pred"]` (the residual
series; the source's variable name is a misnomer), stored at line 89 as
`df["residual"]`. -/
def residualCol (reg : RegModel) (ds : Dataset) : List ℚ :=
  List.zipWith (fun a b => a - b) (teyCol ds) (tey_pred reg ds)

/-- Line 88 and 90, the per-record decision
`np.abs(residual) > 3 * residual_std.std()`: squared to
`residual^2 > 9 * sampleVar`, with the length guard standing for
"`residual_std.std()` (ddof = 1) is not NaN".  Note the threshold compares
`|residual|` itself, not `|residual - mean residual|`, against three
sample standard deviations of the residual series. -/
def resHit (rs : List ℚ) (r : ℚ) : Prop :=
  2 ≤ rs.length ∧ 9 * sampleVar rs < r ^ 2

instance (rs : List ℚ) (r : ℚ) : Decidable (resHit rs r) :=
  inferInstanceAs (Decidable (_ ∧ _))

/-- Line 90: `df["res_flag"] = (np.abs(df["residual"]) > three_sigma)
.astype(int)` with `three_sigma = 3 * residual_std.std()` computed once
from the whole residual series. -/
def res_flag (reg : RegModel) (ds : Dataset) : List ℕ :=
  (residualCol reg ds).map (fun r => if resHit (residualCol reg ds) r then 1 else 0)

/-- Lines 95-97: `df["anomaly"] = (df["z_flag"] | df["iso_flag"] |
df["res_flag"]).astype(int)` — the per-record bitwise or of the three
0/1 flag columns, left associated as in the source. -/
noncomputable def anomaly (mk : ForestModel) (reg : RegModel) (ds : Dataset) : List ℕ :=
  List.zipWith (fun a b => a ||| b)
    (List.zipWith (fun a b => a ||| b) (z_flag ds) (iso_flag mk ds))
    (res_flag reg ds)

/-- The error taxonomy: the source raises ValueError in exactly two
places; the spec names both `SchemaError`.  The first (line 52-56) carries
the available columns, which the source message enumerates. -/
inductive SchemaError
  | noSensorColumns (available : List String)
  | missingRegressionInputs
deriving DecidableEq

/-- Execution trace marker: which pipeline stages have run.  Used to state
where in the straight-line script an error aborts the run. -/
inductive Step
  | zDetector
  | isoDetector
  | residualDetector
  | combiner
  | reportStep
deriving DecidableEq

/-- Lines 102-107: the report handed to `to_csv` — the flag columns, the
resolved sensor columns (with their values), and the residual
diagnostics, in the source's fixed order. -/
structure Report where
  anomaly : List ℕ
  z_flag : List ℕ
  iso_flag : List ℕ
  res_flag : List ℕ
  sensors : List (String × List ℚ)
  TEY_pred : List ℚ
  residual : List ℚ

/-- The whole script, lines 50-107, in source order: resolve `key_cols`
(abort if empty), run the z-score detector, run the isolation forest,
check the regression preconditions (abort if unmet), run the residual
detector, combine, assemble the report.  The first component records
which stages executed before the run ended. -/
noncomputable def runPipeline (mk : ForestModel) (reg : RegModel) (ds : Dataset) :
    List Step × Except SchemaError Report :=
  if key_cols ds = [] then
    ([], Except.error (SchemaError.noSensorColumns ds.schema))
  else
    if (reg_inputs ds).length < 2 ∨ "TEY" ∉ ds.schema then
      ([Step.zDetector, Step.isoDetector],
       Except.error SchemaError.missingRegressionInputs)
    else
      ([Step.zDetector, Step.isoDetector, Step.residualDetector,
        Step.combiner, Step.reportStep],
       Except.ok
         { anomaly := anomaly mk reg ds
           z_flag := z_flag ds
           iso_flag := iso_flag mk ds
           res_flag := res_flag reg ds
           sensors := (key_cols ds).map (fun c => (c, colOf ds c))
           TEY_pred := tey_pred reg ds
           residual := residualCol reg ds })

/-- Modelled from the spec: the Z-Score Detector as the spec words it —
population standard deviation (ddof = 0) instead of pandas' sample
standard deviation, with the spec's zero-variance rule (a constant column
never flags; here a constant column gives both sides 0).  To be compared
with `z_flag`, which embeds lines 61-63 of the source. -/
def zColHitPop (xs : List ℚ) (x : ℚ) : Prop :=
  9 * popVar xs < (x - mean xs) ^ 2

instance (xs : List ℚ) (x : ℚ) : Decidable (zColHitPop xs x) :=
  inferInstanceAs (Decidable (_ < _))

/-- Modelled from the spec: per-record z flag with population statistics,
the spec's reading of the detector; compare with `z_flag`. -/
def z_flag_spec (ds : Dataset) : List ℕ :=
  ds.rows.map (fun r =>
    if ∃ c ∈ key_cols ds, zColHitPop (colOf ds c) (r c) then 1 else 0)

/-!  Concrete fixtures used by witnesses and counterexamples. -/

/-- A row with readings for TIT, TEY, AT, AP (0 elsewhere). -/
def sampleRow (t e a p : ℚ) : String → ℚ := fun c =>
  if c = "TIT" then t
  else if c = "TEY" then e
  else if c = "AT" then a
  else if c = "AP" then p
  else 0

/-- A three-record dataset on which the pipeline runs to completion:
sensor columns TIT and TEY resolve, and TEY plus the two predictors AT
and AP satisfy the regression precondition. -/
def DW : Dataset :=
  { schema := ["TIT", "TEY", "AT", "AP"]
    rows := [sampleRow 1 5 2 3, sampleRow 2 6 2 4, sampleRow 3 7 3 5] }

/-- A forest capability that labels every record an inlier (used where
only the shape of the pipeline matters, not the forest's scores). -/
def mkEx : ForestModel := fun _ _ _ _ predictData =>
  predictData.map (fun _ => false)

/-- A regression capability predicting 0 for every record. -/
def regEx : RegModel := fun X _ => X.map (fun _ => 0)

/-- A regression capability reproducing the target exactly (perfect fit:
every residual is zero). -/
def regId : RegModel := fun _ y => y

/-- Two records whose single resolved sensor column TIT reads 0 and 2:
its population variance is the perfect square 1, so the standardized
matrix is exactly [[-1], [1]] while the raw matrix is [[0], [2]]. -/
def D3 : Dataset :=
  { schema := ["TIT"], rows := [fun _ => 0, fun _ => 2] }

/-- A forest capability that labels a record an outlier exactly when its
first feature of the predict data exceeds 3/2.  On `D3` it tells the raw
matrix apart from the standardized one. -/
noncomputable def exForest : ForestModel := fun _ _ _ _ predictData =>
  predictData.map (fun row => decide ((3:ℝ)/2 < row.headD 0))

/-- Twenty readings of one sensor: eighteen mild values ±1 and two
extremes ±10.  The extremes sit between 3 population standard deviations
(98.1 < 100) and 3 sample standard deviations (100 < 1962/19 ≈ 103.3)
from the mean, so the two notions of standard deviation disagree on the
flag. -/
def vals20 : List ℚ :=
  [10, -10, 1, -1, 1, -1, 1, -1, 1, -1, 1, -1, 1, -1, 1, -1, 1, -1, 1, -1]

/-- The twenty readings of `vals20` as a dataset whose only resolved
sensor column is TIT. -/
def D4 : Dataset :=
  { schema := ["TIT"], rows := vals20.map (fun v => fun _ => v) }

/-- A dataset with TEY present but only one of {AT, AP, RH, CDP}: the
regression precondition fails, while the sensor columns TIT and TEY
resolve so the run reaches the z-score and isolation-forest stages. -/
def D5 : Dataset :=
  { schema := ["TIT", "TEY", "AT"]
    rows := [sampleRow 1 5 2 0, sampleRow 2 6 2 0] }

/-- A two-record dataset whose column TAT is constant (both readings 4)
while TIT varies. -/
def DC : Dataset :=
  { schema := ["TIT", "TAT"]
    rows := [fun c => if c = "TIT" then 1 else 4,
             fun c => if c = "TIT" then 2 else 4] }

/-- A dataset with none of the candidate sensor columns. -/
def D7 : Dataset :=
  { schema := ["AT", "AP"], rows := [fun _ => 1] }

/-!  Helper lemmas shared by the claim theorems. -/

theorem sum_of_const {l : List ℚ} {v : ℚ} (h : ∀ x ∈ l, x = v) :
    l.sum = v * l.length := by
  induction l with
  | nil => simp
  | cons a t ih =>
    have ha : a = v := h a (by simp)
    have ht : ∀ x ∈ t, x = v := fun x hx => h x (by simp [hx])
    simp [ha, ih ht]
    ring

theorem mean_of_const {l : List ℚ} {v : ℚ} (h : ∀ x ∈ l, x = v) (hne : l ≠ []) :
    mean l = v := by
  have hlen : (l.length : ℚ) ≠ 0 := by
    have : l.length ≠ 0 := by simpa [List.length_eq_zero] using hne
    exact_mod_cast this
  simp [mean, sum_of_const h]
  field_simp

theorem sampleVar_nonneg (xs : List ℚ) : 0 ≤ sampleVar xs := by
  rcases xs with _ | ⟨a, t⟩
  · simp [sampleVar]
  · apply div_nonneg
    · apply List.sum_nonneg
      intro x hx
      simp only [List.mem_map] at hx
      obtain ⟨y, -, rfl⟩ := hx
      positivity
    · have : (1 : ℚ) ≤ ((a :: t).length : ℚ) := by
        have : 1 ≤ (a :: t).length := by simp
        exact_mod_cast this
      linarith

/-- The squared comparison used in the embedding is exactly the source's
`|d| > 3 * std` decision: for a nonnegative variance `v`,
`9 v < d ^ 2  ↔  3 √v < |d|`. -/
theorem sq_gt_iff_abs_gt {v d : ℚ} (hv : 0 ≤ v) :
    9 * v < d ^ 2 ↔ 3 * Real.sqrt ((v : ℚ) : ℝ) < |((d : ℚ) : ℝ)| := by
  have hv' : (0 : ℝ) ≤ ((v : ℚ) : ℝ) := by exact_mod_cast hv
  have h3 : (3 : ℝ) * Real.sqrt ((v : ℚ) : ℝ) = Real.sqrt (9 * ((v : ℚ) : ℝ)) := by
    rw [show (9 : ℝ) * ((v : ℚ) : ℝ) = 3 ^ 2 * ((v : ℚ) : ℝ) by norm_num,
      Real.sqrt_mul (by positivity), Real.sqrt_sq (by norm_num)]
  have habs : |((d : ℚ) : ℝ)| = Real.sqrt (((d : ℚ) : ℝ) ^ 2) := by
    rw [Real.sqrt_sq_eq_abs]
  rw [h3, habs, Real.sqrt_lt_sqrt_iff (by positivity)]
  constructor
  · intro h
    have : (9 * v : ℚ) < d ^ 2 := h
    exact_mod_cast this
  · intro h
    have : ((9 * v : ℚ) : ℝ) < ((d ^ 2 : ℚ) : ℝ) := by push_cast; push_cast at h; linarith
    exact_mod_cast this

theorem lor_zero_one {a b : ℕ} (ha : a = 0 ∨ a = 1) (hb : b = 0 ∨ b = 1) :
    a ||| b = if a = 1 ∨ b = 1 then 1 else 0 := by
  rcases ha with rfl | rfl <;> rcases hb with rfl | rfl <;> simp

theorem z_flag_mem_01 (ds : Dataset) {a : ℕ} (h : a ∈ z_flag ds) : a = 0 ∨ a = 1 := by
  simp only [z_flag, List.mem_map] at h
  obtain ⟨r, -, rfl⟩ := h
  by_cases hc : ∃ c ∈ key_cols ds, zColHit (colOf ds c) (r c)
  · right; simp [hc]
  · left; simp [hc]

theorem iso_flag_mem_01 (mk : ForestModel) (ds : Dataset) {a : ℕ}
    (h : a ∈ iso_flag mk ds) : a = 0 ∨ a = 1 := by
  simp only [iso_flag, List.mem_map] at h
  obtain ⟨b, -, rfl⟩ := h
  cases b <;> simp

theorem res_flag_mem_01 (reg : RegModel) (ds : Dataset) {a : ℕ}
    (h : a ∈ res_flag reg ds) : a = 0 ∨ a = 1 := by
  simp only [res_flag, List.mem_map] at h
  obtain ⟨r, -, rfl⟩ := h
  by_cases hc : resHit (residualCol reg ds) r
  · right; simp [hc]
  · left; simp [hc]

/-- C1: for every record of the dataset, the combined verdict satisfies
`anomaly = z_flag | iso_flag | res_flag` exactly — a per-record boolean
or of the three detector flags, with no weighting, voting threshold, or
suppression: the combined flag is 1 precisely when at least one of the
three flags is 1, and 0 otherwise. -/
theorem combined_verdict_is_or (mk : ForestModel) (reg : RegModel) (ds : Dataset)
    (i : ℕ) (hi : i < (anomaly mk reg ds).length) :
    (anomaly mk reg ds).getD i 0 =
      if (z_flag ds).getD i 0 = 1 ∨ (iso_flag mk ds).getD i 0 = 1 ∨
          (res_flag reg ds).getD i 0 = 1
      then 1 else 0 := by
  have hlen := hi
  simp only [anomaly, List.length_zipWith, lt_min_iff] at hlen
  obtain ⟨⟨h1, h2⟩, h3⟩ := hlen
  have hzi : i < (List.zipWith (fun a b => a ||| b) (z_flag ds) (iso_flag mk ds)).length := by
    simp only [List.length_zipWith, lt_min_iff]
    exact ⟨h1, h2⟩
  rw [List.getD_eq_getElem _ _ hi, List.getD_eq_getElem _ _ h1,
    List.getD_eq_getElem _ _ h2, List.getD_eq_getElem _ _ h3]
  show (anomaly mk reg ds)[i] = _
  have hmain : (anomaly mk reg ds)[i] =
      ((z_flag ds)[i] ||| (iso_flag mk ds)[i]) ||| (res_flag reg ds)[i] := by
    simp only [anomaly]
    rw [List.getElem_zipWith, List.getElem_zipWith]
  rw [hmain]
  rcases z_flag_mem_01 ds (List.getElem_mem h1) with hz | hz <;>
    rcases iso_flag_mem_01 mk ds (List.getElem_mem h2) with hio | hio <;>
      rcases res_flag_mem_01 reg ds (List.getElem_mem h3) with hr | hr <;>
        rw [hz, hio, hr] <;> simp

/-- Witness for C1 at the concrete dataset `DW`, record 0. -/
theorem combined_verdict_is_or_wit :
    (anomaly mkEx regEx DW).getD 0 0 =
      if (z_flag DW).getD 0 0 = 1 ∨ (iso_flag mkEx DW).getD 0 0 = 1 ∨
          (res_flag regEx DW).getD 0 0 = 1
      then 1 else 0 :=
  combined_verdict_is_or mkEx regEx DW 0 (by
    simp [anomaly, List.length_zipWith, z_flag, iso_flag, res_flag, residualCol,
      tey_pred, teyCol, colOf, rawMatrix, designMatrix, mkEx, regEx, DW])

/-- Evaluation of the residual series on the fixture `DW` with the
constant-zero regressor: the residuals are the TEY readings themselves. -/
theorem residual_DW_eval : residualCol regEx DW = [5, 6, 7] := by
  simp [residualCol, teyCol, colOf, tey_pred, regEx, designMatrix, reg_inputs, DW, sampleRow]

/-- C2: for every record, the Residual Detector assigns
`residual = TEY - TEY_pred` (with `TEY_pred` the black-box linear model's
prediction, fitted once on the whole dataset), and assigns `res_flag = 1`
exactly when `|residual| > 3 * sigma_res`, where `sigma_res` is the one
dataset-wide standard deviation of the whole residual series — the same
scalar appears in every per-record comparison. -/
theorem res_flag_three_sigma (reg : RegModel) (ds : Dataset) (i : ℕ)
    (hn : 2 ≤ (residualCol reg ds).length)
    (hi : i < (residualCol reg ds).length) :
    (residualCol reg ds).getD i 0 =
        (teyCol ds).getD i 0 - (tey_pred reg ds).getD i 0 ∧
      ((res_flag reg ds).getD i 0 = 1 ↔
        |(((residualCol reg ds).getD i 0 : ℚ) : ℝ)| >
          3 * Real.sqrt ((sampleVar (residualCol reg ds) : ℚ) : ℝ)) := by
  have h1 : i < (teyCol ds).length := by
    have h := hi
    simp only [residualCol, List.length_zipWith, lt_min_iff] at h
    exact h.1
  have h2 : i < (tey_pred reg ds).length := by
    have h := hi
    simp only [residualCol, List.length_zipWith, lt_min_iff] at h
    exact h.2
  have hf : i < (res_flag reg ds).length := by
    simpa [res_flag] using hi
  constructor
  · rw [List.getD_eq_getElem _ _ hi, List.getD_eq_getElem _ _ h1,
      List.getD_eq_getElem _ _ h2]
    simp only [residualCol]
    rw [List.getElem_zipWith]
  · rw [List.getD_eq_getElem _ _ hf, List.getD_eq_getElem _ _ hi]
    have hmap : (res_flag reg ds)[i] =
        if resHit (residualCol reg ds) ((residualCol reg ds)[i]) then 1 else 0 := by
      simp only [res_flag]
      rw [List.getElem_map]
    rw [hmap]
    constructor
    · intro h1eq
      have hP : resHit (residualCol reg ds) ((residualCol reg ds)[i]) := by
        by_contra hP
        rw [if_neg hP] at h1eq
        exact absurd h1eq (by norm_num)
      exact (sq_gt_iff_abs_gt (sampleVar_nonneg _)).1 hP.2
    · intro habs
      have hP : resHit (residualCol reg ds) ((residualCol reg ds)[i]) :=
        ⟨hn, (sq_gt_iff_abs_gt (sampleVar_nonneg _)).2 habs⟩
      rw [if_pos hP]

/-- Witness for C2 at the fixture `DW`, the zero regressor, record 0. -/
theorem res_flag_three_sigma_wit :
    (residualCol regEx DW).getD 0 0 =
        (teyCol DW).getD 0 0 - (tey_pred regEx DW).getD 0 0 ∧
      ((res_flag regEx DW).getD 0 0 = 1 ↔
        |(((residualCol regEx DW).getD 0 0 : ℚ) : ℝ)| >
          3 * Real.sqrt ((sampleVar (residualCol regEx DW) : ℚ) : ℝ)) :=
  res_flag_three_sigma regEx DW 0
    (by rw [residual_DW_eval]; norm_num)
    (by rw [residual_DW_eval]; norm_num)

/-- Constant-zero series have sample variance zero. -/
theorem sampleVar_of_zero {l : List ℚ} (h : ∀ x ∈ l, x = 0) : sampleVar l = 0 := by
  have hm : mean l = 0 := by
    rcases eq_or_ne l [] with rfl | hne
    · simp [mean]
    · exact mean_of_const h hne
  have hzero : ∀ y ∈ l.map (fun x => (x - mean l) ^ 2), y = 0 := by
    intro y hy
    simp only [List.mem_map] at hy
    obtain ⟨x, hx, rfl⟩ := hy
    rw [h x hx, hm]
    ring
  have hsum : (l.map (fun x => (x - mean l) ^ 2)).sum = 0 := by
    rw [sum_of_const hzero]
    ring
  simp [sampleVar, hsum]

/-- C10: if the fitted linear model reproduces TEY exactly (every
residual is zero), then `sigma_res = 0` and no record receives
`res_flag = 1`: the comparison `|residual| > 3 * sigma_res` is strict, so
a degenerate perfect fit yields all-zero residual flags rather than
flagging everything or crashing. -/
theorem perfect_fit_no_res_flags (reg : RegModel) (ds : Dataset)
    (h : ∀ r ∈ residualCol reg ds, r = 0) :
    sampleVar (residualCol reg ds) = 0 ∧ ∀ a ∈ res_flag reg ds, a = 0 := by
  refine ⟨sampleVar_of_zero h, ?_⟩
  intro a ha
  simp only [res_flag, List.mem_map] at ha
  obtain ⟨r, hr, rfl⟩ := ha
  have hr0 : r = 0 := h r hr
  have hnot : ¬ resHit (residualCol reg ds) r := by
    intro hhit
    have h2 := hhit.2
    rw [sampleVar_of_zero h, hr0] at h2
    norm_num at h2
  rw [if_neg hnot]

/-- Witness for C10: the identity regressor on `DW` reproduces TEY, all
residuals are zero, and no residual flag is raised. -/
theorem perfect_fit_no_res_flags_wit :
    sampleVar (residualCol regId DW) = 0 ∧ ∀ a ∈ res_flag regId DW, a = 0 :=
  perfect_fit_no_res_flags regId DW (by
    intro r hr
    simp [residualCol, teyCol, colOf, tey_pred, regId, DW, sampleRow] at hr
    exact hr)

/-- C6: a selected sensor column whose readings are all identical (zero
variance) contributes no signal: no record is flagged via that column's
z-score, and no division error propagates (the embedded decision is a
total function; pandas' 0/0 = NaN comparison is likewise False). -/
theorem constant_column_never_flags (ds : Dataset) (c : String) (v : ℚ)
    (hc : c ∈ key_cols ds) (hconst : ∀ y ∈ colOf ds c, y = v)
    (i : ℕ) (hi : i < ds.rows.length) :
    ¬ zColHit (colOf ds c) ((ds.rows[i]) c) := by
  intro hhit
  have hx : (ds.rows[i]) c ∈ colOf ds c :=
    List.mem_map_of_mem (fun r => r c) (List.getElem_mem hi)
  have hne : colOf ds c ≠ [] := by
    intro hemp
    rw [hemp] at hx
    simp at hx
  have hm : mean (colOf ds c) = v := mean_of_const hconst hne
  have hxv : (ds.rows[i]) c = v := hconst _ hx
  have hd : ((ds.rows[i]) c - mean (colOf ds c)) ^ 2 = 0 := by
    rw [hm, hxv]
    ring
  have h2 := hhit.2
  rw [hd] at h2
  have := sampleVar_nonneg (colOf ds c)
  linarith

/-- Witness for C6: on `DC` the selected column TAT is constantly 4 and
record 0 is not flagged via it. -/
theorem constant_column_never_flags_wit :
    ¬ zColHit (colOf DC "TAT") ((DC.rows.get ⟨0, by simp [DC]⟩) "TAT") :=
  constant_column_never_flags DC "TAT" 4
    (by decide)
    (by
      intro y hy
      simp [colOf, DC] at hy
      exact hy)
    0 (by simp [DC])

/-- Mean of the twenty fixture readings. -/
theorem vals20_mean : mean vals20 = 0 := by
  norm_num [mean, vals20]

/-- Sample variance (ddof = 1) of the fixture readings: 218/19. -/
theorem vals20_sampleVar : sampleVar vals20 = 218/19 := by
  simp only [sampleVar, vals20_mean]
  norm_num [vals20]

/-- Population variance (ddof = 0) of the fixture readings: 218/20. -/
theorem vals20_popVar : popVar vals20 = 109/10 := by
  simp only [popVar, vals20_mean]
  norm_num [vals20]

/-- On `D4` the source's z flag (pandas sample std) does not flag the
first record: 9 * 218/19 is above (10 - 0)^2 = 100. -/
theorem z_flag_D4_head : (z_flag D4).getD 0 0 = 0 := by
  have hcol : colOf D4 "TIT" = vals20 := by simp [colOf, D4, vals20]
  have hkc : key_cols D4 = ["TIT"] := by decide
  have hnot : ¬ zColHit vals20 10 := by
    intro h
    have h2 := h.2
    rw [vals20_sampleVar, vals20_mean] at h2
    norm_num at h2
  have hlen : 0 < (z_flag D4).length := by simp [z_flag, D4, vals20]
  have hrow : ∀ h : 0 < D4.rows.length, D4.rows[0] = fun _ => (10:ℚ) := by
    intro h
    simp [D4, vals20]
  rw [List.getD_eq_getElem _ _ hlen]
  simp only [z_flag]
  rw [List.getElem_map]
  simp only [hkc, hrow, hcol]
  simp [hcol, hnot]

/-- On `D4` the spec-worded z flag (population std) flags the first
record: 9 * 109/10 = 98.1 is below 100. -/
theorem z_flag_spec_D4_head : (z_flag_spec D4).getD 0 0 = 1 := by
  have hcol : colOf D4 "TIT" = vals20 := by simp [colOf, D4, vals20]
  have hkc : key_cols D4 = ["TIT"] := by decide
  have hyes : zColHitPop vals20 10 := by
    simp only [zColHitPop]
    rw [vals20_popVar, vals20_mean]
    norm_num
  have hlen : 0 < (z_flag_spec D4).length := by simp [z_flag_spec, D4, vals20]
  have hrow : ∀ h : 0 < D4.rows.length, D4.rows[0] = fun _ => (10:ℚ) := by
    intro h
    simp [D4, vals20]
  rw [List.getD_eq_getElem _ _ hlen]
  simp only [z_flag_spec]
  rw [List.getElem_map]
  simp only [hkc, hrow, hcol]
  simp [hcol, hyes]

/-- Counterexample to C4 as stated: with the twenty readings of `vals20`
as the only sensor column, the detector of the source (pandas sample
standard deviation, ddof = 1) and the claim's detector (population
standard deviation) give different flag columns — the source flags no
record while the population-std detector flags the extreme readings. -/
theorem z_flag_population_ne : z_flag D4 ≠ z_flag_spec D4 := by
  intro h
  have h0 := congrArg (fun l => l.getD 0 0) h
  dsimp only at h0
  rw [z_flag_D4_head, z_flag_spec_D4_head] at h0
  exact absurd h0 (by norm_num)

/-- C4 as amended: the Z-Score Detector computes, for each selected
column, the mean and the SAMPLE standard deviation (ddof = 1, the pandas
default) over the entire dataset, scores each record as
(value - mean) / std, and assigns `z_flag = 1` exactly when the absolute
score exceeds 3.0 for at least one selected column (logical or across
columns; a dataset of fewer than two records never flags, since the
sample standard deviation is then undefined). -/
theorem z_flag_sample_std (ds : Dataset) (i : ℕ) (hi : i < ds.rows.length) :
    (z_flag ds).getD i 0 = 1 ↔
      ∃ c ∈ key_cols ds,
        2 ≤ ds.rows.length ∧
        |(((ds.rows[i]) c - mean (colOf ds c) : ℚ) : ℝ)| >
          3 * Real.sqrt ((sampleVar (colOf ds c) : ℚ) : ℝ) := by
  have hz : i < (z_flag ds).length := by simpa [z_flag] using hi
  rw [List.getD_eq_getElem _ _ hz]
  have hmap : (z_flag ds)[i] =
      if ∃ c ∈ key_cols ds, zColHit (colOf ds c) ((ds.rows[i]) c) then 1 else 0 := by
    simp only [z_flag]
    rw [List.getElem_map]
  rw [hmap]
  have hcol : ∀ c : String, (colOf ds c).length = ds.rows.length := by
    intro c
    simp [colOf]
  constructor
  · intro h1
    have hP : ∃ c ∈ key_cols ds, zColHit (colOf ds c) ((ds.rows[i]) c) := by
      by_contra hP
      rw [if_neg hP] at h1
      exact absurd h1 (by norm_num)
    obtain ⟨c, hcmem, hhit⟩ := hP
    refine ⟨c, hcmem, ?_, ?_⟩
    · rw [← hcol c]
      exact hhit.1
    · exact (sq_gt_iff_abs_gt (sampleVar_nonneg _)).1 hhit.2
  · rintro ⟨c, hcmem, hlen, habs⟩
    have hP : ∃ c ∈ key_cols ds, zColHit (colOf ds c) ((ds.rows[i]) c) :=
      ⟨c, hcmem,
        ⟨by rw [hcol c]; exact hlen, (sq_gt_iff_abs_gt (sampleVar_nonneg _)).2 habs⟩⟩
    rw [if_pos hP]

/-- Witness for the amended C4 at the fixture `DW`, record 0. -/
theorem z_flag_sample_std_wit :
    (z_flag DW).getD 0 0 = 1 ↔
      ∃ c ∈ key_cols DW,
        2 ≤ DW.rows.length ∧
        |(((DW.rows.get ⟨0, by simp [DW]⟩) c - mean (colOf DW c) : ℚ) : ℝ)| >
          3 * Real.sqrt ((sampleVar (colOf DW c) : ℚ) : ℝ) :=
  z_flag_sample_std DW 0 (by simp [DW])

/-- Counterexample to C5 as stated: on a dataset with TEY but only one of
{AT, AP, RH, CDP} (the fixture `D5`), the run does abort with the schema
error and produces no report, but NOT before any detector executes — the
z-score and isolation-forest detectors have both already run when the
check at line 78 fires. -/
theorem schema_error_after_detectors :
    (runPipeline mkEx regEx D5).2 = Except.error SchemaError.missingRegressionInputs ∧
      Step.zDetector ∈ (runPipeline mkEx regEx D5).1 ∧
      Step.isoDetector ∈ (runPipeline mkEx regEx D5).1 := by
  have hrun : runPipeline mkEx regEx D5 =
      ([Step.zDetector, Step.isoDetector],
       Except.error SchemaError.missingRegressionInputs) := by
    unfold runPipeline
    rw [if_neg (by decide : ¬ key_cols D5 = []), if_pos (by decide)]
  rw [hrun]
  refine ⟨rfl, ?_, ?_⟩ <;> decide

/-- C5 as amended: when the residual-detector preconditions are unmet
(the dataset lacks TEY, or fewer than two of {AT, AP, RH, CDP} are
present) while sensor columns do resolve, the pipeline raises the
SchemaError and no report is produced; the error aborts the run before
the residual detector executes, but the z-score and density detectors
have already executed. -/
theorem residual_precondition_aborts (mk : ForestModel) (reg : RegModel)
    (ds : Dataset) (hk : key_cols ds ≠ [])
    (hr : (reg_inputs ds).length < 2 ∨ "TEY" ∉ ds.schema) :
    runPipeline mk reg ds =
      ([Step.zDetector, Step.isoDetector],
       Except.error SchemaError.missingRegressionInputs) := by
  unfold runPipeline
  rw [if_neg hk, if_pos hr]

/-- Witness for the amended C5 on the fixture `D5`. -/
theorem residual_precondition_aborts_wit :
    runPipeline mkEx regEx D5 =
      ([Step.zDetector, Step.isoDetector],
       Except.error SchemaError.missingRegressionInputs) :=
  residual_precondition_aborts mkEx regEx D5 (by decide) (by decide)

/-- C7: the Column Resolver returns exactly the candidates from
{TIT, TAT, TEY, CDP, CO, NOx} present in the schema, in the candidates'
declared order (a sublist of the declared list, not schema order); when
the result is empty the run aborts immediately with the SchemaError whose
diagnostic carries the available columns — the trace is empty (no
detector ran) and no report is produced. -/
theorem key_cols_resolution (mk : ForestModel) (reg : RegModel) (ds : Dataset) :
    (key_cols ds).Sublist candidate_cols ∧
      (∀ c, c ∈ key_cols ds ↔ c ∈ candidate_cols ∧ c ∈ ds.schema) ∧
      (key_cols ds = [] →
        runPipeline mk reg ds =
          ([], Except.error (SchemaError.noSensorColumns ds.schema))) := by
  refine ⟨List.filter_sublist _, ?_, ?_⟩
  · intro c
    simp [key_cols, List.mem_filter]
  · intro hempty
    unfold runPipeline
    rw [if_pos hempty]

/-- Witness for C7 on the sensorless fixture `D7`. -/
theorem key_cols_resolution_wit :
    (key_cols D7).Sublist candidate_cols ∧
      (∀ c, c ∈ key_cols D7 ↔ c ∈ candidate_cols ∧ c ∈ D7.schema) ∧
      (key_cols D7 = [] →
        runPipeline mkEx regEx D7 =
          ([], Except.error (SchemaError.noSensorColumns D7.schema))) :=
  key_cols_resolution mkEx regEx D7

/-- C8: the pipeline is deterministic.  In this pure embedding the only
possible source of run-to-run variation is the forest collaborator; the
source fixes its seed (random_state = 42), so two runs construct the
forest at the identical configuration (200 estimators, contamination
0.02, seed 42).  Whenever the two runs' forest constructions agree at
that one fixed configuration — which is what deterministic seeding
guarantees — every record's iso_flag is identical across the runs; no
other component introduces nondeterminism. -/
theorem iso_flag_deterministic (mk₁ mk₂ : ForestModel) (ds : Dataset)
    (h : mk₁ 200 (2/100) 42 = mk₂ 200 (2/100) 42) :
    iso_flag mk₁ ds = iso_flag mk₂ ds := by
  unfold iso_flag
  rw [h]

/-- Witness for C8: two runs with the same forest construction on `DW`. -/
theorem iso_flag_deterministic_wit : iso_flag mkEx DW = iso_flag mkEx DW :=
  iso_flag_deterministic mkEx mkEx DW rfl

/-- C9: on the success path, the report's sensor columns are exactly the
input dataset's resolved columns with their values in input row order
(source sensor values unchanged, record order preserved), and every
derived column of the report equals the single pure function of the input
that defines it — each is assigned exactly once by construction and never
mutated afterwards.  The z-flag column has one entry per input record. -/
theorem pipeline_frame (mk : ForestModel) (reg : RegModel) (ds : Dataset)
    (tr : List Step) (rep : Report)
    (h : runPipeline mk reg ds = (tr, Except.ok rep)) :
    rep.sensors = (key_cols ds).map (fun c => (c, colOf ds c)) ∧
      rep.z_flag = z_flag ds ∧
      rep.iso_flag = iso_flag mk ds ∧
      rep.res_flag = res_flag reg ds ∧
      rep.anomaly = anomaly mk reg ds ∧
      rep.TEY_pred = tey_pred reg ds ∧
      rep.residual = residualCol reg ds ∧
      rep.z_flag.length = ds.rows.length := by
  unfold runPipeline at h
  split at h
  · simp at h
  · split at h
    · simp at h
    · rw [Prod.mk.injEq] at h
      obtain ⟨-, hrep⟩ := h
      rw [Except.ok.injEq] at hrep
      subst hrep
      refine ⟨rfl, rfl, rfl, rfl, rfl, rfl, rfl, ?_⟩
      simp [z_flag]

/-- Witness for C9: the concrete run on `DW` succeeds and its report is
the record built from the once-computed derived columns. -/
theorem pipeline_frame_wit :
    (Report.mk (anomaly mkEx regEx DW) (z_flag DW) (iso_flag mkEx DW)
        (res_flag regEx DW) ((key_cols DW).map (fun c => (c, colOf DW c)))
        (tey_pred regEx DW) (residualCol regEx DW)).sensors =
        (key_cols DW).map (fun c => (c, colOf DW c)) ∧
      (Report.mk (anomaly mkEx regEx DW) (z_flag DW) (iso_flag mkEx DW)
        (res_flag regEx DW) ((key_cols DW).map (fun c => (c, colOf DW c)))
        (tey_pred regEx DW) (residualCol regEx DW)).z_flag = z_flag DW ∧
      (Report.mk (anomaly mkEx regEx DW) (z_flag DW) (iso_flag mkEx DW)
        (res_flag regEx DW) ((key_cols DW).map (fun c => (c, colOf DW c)))
        (tey_pred regEx DW) (residualCol regEx DW)).iso_flag = iso_flag mkEx DW ∧
      (Report.mk (anomaly mkEx regEx DW) (z_flag DW) (iso_flag mkEx DW)
        (res_flag regEx DW) ((key_cols DW).map (fun c => (c, colOf DW c)))
        (tey_pred regEx DW) (residualCol regEx DW)).res_flag = res_flag regEx DW ∧
      (Report.mk (anomaly mkEx regEx DW) (z_flag DW) (iso_flag mkEx DW)
        (res_flag regEx DW) ((key_cols DW).map (fun c => (c, colOf DW c)))
        (tey_pred regEx DW) (residualCol regEx DW)).anomaly = anomaly mkEx regEx DW ∧
      (Report.mk (anomaly mkEx regEx DW) (z_flag DW) (iso_flag mkEx DW)
        (res_flag regEx DW) ((key_cols DW).map (fun c => (c, colOf DW c)))
        (tey_pred regEx DW) (residualCol regEx DW)).TEY_pred = tey_pred regEx DW ∧
      (Report.mk (anomaly mkEx regEx DW) (z_flag DW) (iso_flag mkEx DW)
        (res_flag regEx DW) ((key_cols DW).map (fun c => (c, colOf DW c)))
        (tey_pred regEx DW) (residualCol regEx DW)).residual = residualCol regEx DW ∧
      (Report.mk (anomaly mkEx regEx DW) (z_flag DW) (iso_flag mkEx DW)
        (res_flag regEx DW) ((key_cols DW).map (fun c => (c, colOf DW c)))
        (tey_pred regEx DW) (residualCol regEx DW)).z_flag.length = DW.rows.length :=
  pipeline_frame mkEx regEx DW
    [Step.zDetector, Step.isoDetector, Step.residualDetector,
      Step.combiner, Step.reportStep]
    (Report.mk (anomaly mkEx regEx DW) (z_flag DW) (iso_flag mkEx DW)
      (res_flag regEx DW) ((key_cols DW).map (fun c => (c, colOf DW c)))
      (tey_pred regEx DW) (residualCol regEx DW))
    (by
      unfold runPipeline
      rw [if_neg (by decide : ¬ key_cols DW = []), if_neg (by decide)])

/-- Values of the single sensor column of `D3`. -/
theorem colOf_D3 : colOf D3 "TIT" = [0, 2] := by
  simp [colOf, D3]

/-- Mean of the `D3` column. -/
theorem mean_D3 : mean (colOf D3 "TIT") = 1 := by
  rw [colOf_D3]
  norm_num [mean]

/-- Population variance of the `D3` column is the perfect square 1. -/
theorem popVar_D3 : popVar (colOf D3 "TIT") = 1 := by
  rw [colOf_D3]
  norm_num [popVar, mean]

/-- StandardScaler's scale on the `D3` column is exactly 1. -/
theorem scaleFactor_D3 : scaleFactor (colOf D3 "TIT") = 1 := by
  rw [scaleFactor, popVar_D3]
  norm_num [Real.sqrt_one]

/-- The raw predict matrix of `D3`. -/
theorem rawMatrix_D3 : rawMatrix D3 = [[(0:ℝ)], [(2:ℝ)]] := by
  have hkc : key_cols D3 = ["TIT"] := by decide
  have hrows : D3.rows = [fun _ => (0:ℚ), fun _ => (2:ℚ)] := rfl
  simp only [rawMatrix, hkc, hrows]
  norm_num

/-- The standardized fit matrix of `D3`. -/
theorem scaledMatrix_D3 : scaledMatrix D3 = [[(-1:ℝ)], [(1:ℝ)]] := by
  have hkc : key_cols D3 = ["TIT"] := by decide
  have hrows : D3.rows = [fun _ => (0:ℚ), fun _ => (2:ℚ)] := rfl
  simp only [scaledMatrix, hkc, hrows, List.map_cons, List.map_nil]
  simp only [mean_D3, scaleFactor_D3]
  norm_num

/-- C3 fails on the code: the per-record labels mapped to iso_flag come
from `predict` on the raw, unstandardized `df[key_cols]` (line 72), not
from `fit_predict` on the standardized matrix the model was fitted on
(line 71).  On `D3` (sensor readings 0 and 2; standardized to -1 and 1)
with a forest labelling a record an outlier when its feature exceeds 3/2,
the source's flags are [0, 1] while the spec's
`fit_predict(standardized_matrix)` flags are [0, 0]. -/
theorem iso_predict_unscaled_bug :
    iso_flag exForest D3 ≠ iso_flag_spec exForest D3 := by
  have hcode : iso_flag exForest D3 = [0, 1] := by
    simp only [iso_flag, exForest, rawMatrix_D3, List.map_cons, List.map_nil,
      List.headD_cons]
    norm_num
  have hspec : iso_flag_spec exForest D3 = [0, 0] := by
    simp only [iso_flag_spec, exForest, scaledMatrix_D3, List.map_cons,
      List.map_nil, List.headD_cons]
    norm_num
  rw [hcode, hspec]
  simp

end AnomalyDetection

